import Mathlib

/-!
Verification development for the Gemini relay service (Express + @google/generative-ai).

The development shallowly embeds the response-normalization and multi-key-dispatch
layer: the round-robin credential selector `getNextGenAI` (models/geminiModel.js),
the response classifier `GeminiModel.processResponse` (the loop-based variant of
models/geminiModel.js and the find-based variant of the older model file), the
upstream-error mapping of `GeminiModel.generateContent`, the presentation switch of
`GenerationController.generateContent` (controllers/generationController.js) and the
`errorMiddleware` of utils/errorHandler.js.

JavaScript dynamic values that the code inspects are modelled explicitly: a small
`Json` type for the data objects the layer builds, `Option` for possibly-absent
fields, and JS truthiness as boolean functions. Code paths that throw inside the
classifier are modelled with `Except String`, the `try`/`catch` wrapper converts the
carried message exactly as the source does. `NODE_ENV` is modelled as not being
`development`, so the diagnostic `rawResponse` field of the catch branch is
`undefined`; no claim references that field.
-/

/-- A JSON-like value as produced and inspected by the relay. `undefined` models the
JavaScript `undefined` value, which is distinct from `null` (e.g. an absent object
field reads as `undefined`). -/
inductive Json where
  | null
  | undefined
  | bool (b : Bool)
  | num (n : Int)
  | str (s : String)
  | arr (elems : List Json)
  | obj (fields : List (String × Json))

/-- JavaScript truthiness of a `Json` value: `null`, `undefined`, `false`, `0` and
`""` are falsy; every object and array is truthy. -/
def jsTruthy : Json → Bool
  | .null => false
  | .undefined => false
  | .bool b => b
  | .num n => n != 0
  | .str s => s != ""
  | .arr _ => true
  | .obj _ => true

/-- Truthiness of a JS variable holding a string, `null` or `undefined`
(both modelled by `none`): the empty string is falsy. -/
def jsStrTruthy : Option String → Bool
  | none => false
  | some s => s != ""

/-- Template-literal interpolation of a possibly-`undefined` string variable:
JavaScript stringifies `undefined` as `"undefined"`. -/
def jsInterp : Option String → String
  | none => "undefined"
  | some s => s

/-- A string-or-`null` variable placed into an object literal. -/
def optStrToJson : Option String → Json
  | none => Json.null
  | some s => Json.str s

/-- Property read `j[key]` on a JS value: absent fields and reads on non-objects
yield `undefined` (the layer only reads properties of objects it built itself). -/
def jsonGet (j : Json) (key : String) : Json :=
  match j with
  | .obj fields =>
    match fields.find? (fun f => f.1 == key) with
    | some f => f.2
    | none => .undefined
  | _ => .undefined

/-- Property write `j[key] = v` on a JS object: replaces the field in place when
present, appends it otherwise. On non-objects the (sloppy-mode) write is a no-op. -/
def jsonSetField (j : Json) (key : String) (v : Json) : Json :=
  match j with
  | .obj fields =>
    if fields.any (fun f => f.1 == key) then
      .obj (fields.map (fun f => if f.1 == key then (f.1, v) else f))
    else
      .obj (fields ++ [(key, v)])
  | other => other

/-- Boolean prefix test on character lists (kernel-reducible helper for the
string predicates below). -/
def listIsPrefixOfB : List Char → List Char → Bool
  | [], _ => true
  | _ :: _, [] => false
  | a :: as, b :: bs => a == b && listIsPrefixOfB as bs

/-- Boolean contiguous-substring test on character lists. -/
def listContains (pat : List Char) : List Char → Bool
  | [] => listIsPrefixOfB pat []
  | c :: rest => listIsPrefixOfB pat (c :: rest) || listContains pat rest

/-- JavaScript `String.prototype.startsWith`. -/
def jsStartsWith (s pat : String) : Bool := listIsPrefixOfB pat.data s.data

/-- JavaScript `String.prototype.includes`. -/
def jsIncludes (s pat : String) : Bool := listContains pat.data s.data

/-- JavaScript `String.prototype.toLowerCase` (ASCII behaviour suffices for the
patterns the code compares against). -/
def jsToLower (s : String) : String := String.mk (s.data.map Char.toLower)

/-- JavaScript `String.prototype.trim` (whitespace at both ends removed). -/
def jsTrim (s : String) : String :=
  String.mk (((s.data.dropWhile Char.isWhitespace).reverse.dropWhile Char.isWhitespace).reverse)

/-- JavaScript `Array.prototype.join`. -/
def jsJoin (sep : String) : List String → String
  | [] => ""
  | [t] => t
  | t :: rest => t ++ sep ++ jsJoin sep rest

/-- The `inlineData` object of a response part; both fields may be absent in a
malformed payload. -/
structure InlineData where
  mimeType : Option String
  data : Option String

/-- A well-typed response part object: optional `text` string, optional
`inlineData`. -/
structure ContentPart where
  text : Option String
  inlineData : Option InlineData

/-- An entry of a candidate `parts` array: either a part object or the JS `null`
value (an unexpected shape on which property reads throw). -/
inductive JsPart where
  | nullPart
  | part (p : ContentPart)

/-- A candidate `content` object. -/
structure Content where
  parts : Option (List JsPart)

/-- One response candidate: `safetyRatings` is carried opaquely (`Json.undefined` when
absent). -/
structure Candidate where
  finishReason : Option String
  safetyRatings : Json
  content : Option Content

/-- The top-level `promptFeedback` object. -/
structure PromptFeedback where
  blockReason : Option String

/-- The raw upstream response object (`result.response` of the SDK). -/
structure ApiResponse where
  promptFeedback : Option PromptFeedback
  candidates : Option (List Candidate)

/-- The structured response of the model layer: `type` is the string the source
stores in the `type` field and `data` the object stored in `data`. -/
structure ModelResponse where
  type : String
  data : Json

/-- Message of the TypeError raised by `part.inlineData` when `part` is `null`. -/
def nullPartReadMsg : String := "Cannot read properties of null (reading inlineData)"

/-- Message of the TypeError raised by `part.inlineData.mimeType.startsWith(...)`
when `mimeType` is absent. -/
def startsWithUndefMsg : String := "Cannot read properties of undefined (reading startsWith)"

/-- The condition `finishReason && finishReason !== 'STOP'` of the source:
the finish reason is truthy and differs from the normal-completion value. -/
def abnormalFinish (fr : Option String) : Bool :=
  jsStrTruthy fr && fr != some "STOP"

/-- `apiResponse.candidates?.[0]?.finishReason`. -/
def firstCandidateFinishReason (resp : ApiResponse) : Option String :=
  match resp.candidates with
  | some (c :: _) => c.finishReason
  | _ => none

/-- `apiResponse.candidates?.[0]?.safetyRatings`. -/
def firstCandidateSafetyRatings (resp : ApiResponse) : Json :=
  match resp.candidates with
  | some (c :: _) => c.safetyRatings
  | _ => .undefined

/-- Encoding of a part back into a JS value, used for the diagnostic `rawParts`
field of the empty outcome. Absent fields are omitted, as in the SDK objects. -/
def partToJson : JsPart → Json
  | .nullPart => .null
  | .part p =>
    .obj ((match p.text with
           | some t => [("text", Json.str t)]
           | none => []) ++
          (match p.inlineData with
           | some d =>
             [("inlineData", Json.obj
               ((match d.mimeType with
                 | some m => [("mimeType", Json.str m)]
                 | none => []) ++
                (match d.data with
                 | some s => [("data", Json.str s)]
                 | none => [])))]
           | none => []))

/-- Accumulator of the part-scanning loop of `processResponse`
(models/geminiModel.js lines 445-447): `textContent`, `imageData` and
`imageMimeType`, all initially `null`. -/
structure ScanState where
  textContent : Option String
  imageData : Option String
  imageMimeType : Option String

/-- One iteration of the `for (const part of parts)` loop (lines 450-461):
an inline-data part with an `image/` MIME type overwrites the remembered image,
otherwise a string `text` field is appended to the accumulated text. Property
reads on unexpected shapes throw. -/
def scanPart (st : ScanState) : JsPart → Except String ScanState
  | .nullPart => .error nullPartReadMsg
  | .part pt =>
    match pt.inlineData with
    | some d =>
      match d.mimeType with
      | none => .error startsWithUndefMsg
      | some m =>
        if jsStartsWith m "image/" then
          .ok { st with imageData := d.data, imageMimeType := some m }
        else
          match pt.text with
          | some t => .ok { st with textContent := some (st.textContent.getD "" ++ t) }
          | none => .ok st
    | none =>
      match pt.text with
      | some t => .ok { st with textContent := some (st.textContent.getD "" ++ t) }
      | none => .ok st

/-- The whole scanning loop over the part list. -/
def scanParts (st : ScanState) : List JsPart → Except String ScanState
  | [] => .ok st
  | p :: rest =>
    match scanPart st p with
    | .error m => .error m
    | .ok st' => scanParts st' rest

/-- The `empty` result for a candidate without content parts (line 441). -/
def emptyNoPartsResult : ModelResponse :=
  ⟨"empty", .obj [("text", .str "The model returned a candidate but no content parts.")]⟩

/-- Lines 444-488 of models/geminiModel.js: scan the parts, then return the image
outcome if an image was remembered (truthy `imageData`), else the text outcome if
text accumulated truthy, else the empty outcome carrying the raw parts. -/
def scanResult (parts : List JsPart) : Except String ModelResponse :=
  match scanParts ⟨none, none, none⟩ parts with
  | .error m => .error m
  | .ok st =>
    if jsStrTruthy st.imageData then
      .ok ⟨"image", .obj [
        ("imageUrl", .str ("data:" ++ jsInterp st.imageMimeType ++ ";base64," ++ jsInterp st.imageData)),
        ("text", optStrToJson st.textContent)]⟩
    else if jsStrTruthy st.textContent then
      .ok ⟨"text", .obj [("text", .str (st.textContent.getD ""))]⟩
    else
      .ok ⟨"empty", .obj [
        ("text", .str "Model response did not contain usable text or image data."),
        ("rawParts", .arr (parts.map partToJson))]⟩

/-- Lines 399-410 of models/geminiModel.js: the branch for an absent or empty
candidate list. `finishReason` is read through `candidates?.[0]?.`. -/
def noCandidatesResult (resp : ApiResponse) : Except String ModelResponse :=
  let finishReason := firstCandidateFinishReason resp
  if abnormalFinish finishReason then
    .ok ⟨"text", .obj [("text", .str ("Generation stopped due to: " ++ finishReason.getD "" ++ ". No content available."))]⟩
  else
    .ok ⟨"empty", .obj [("text", .str "The model did not return any content.")]⟩

/-- Lines 412-488 of models/geminiModel.js: the candidate-0 branch — abnormal
finish reasons first (SAFETY, RECITATION, other), then missing/empty parts,
then the part scan. -/
def candidateResult (candidate : Candidate) : Except String ModelResponse :=
  if abnormalFinish candidate.finishReason then
    if candidate.finishReason == some "SAFETY" then
      .ok ⟨"error", .obj [
        ("error", .str "Content generation stopped due to safety concerns."),
        ("details", .obj [("safetyRatings", candidate.safetyRatings)])]⟩
    else if candidate.finishReason == some "RECITATION" then
      .ok ⟨"error", .obj [("error", .str "Content generation stopped due to potential recitation.")]⟩
    else
      .ok ⟨"text", .obj [("text", .str ("Generation stopped unexpectedly (" ++ candidate.finishReason.getD "" ++ "). Partial content might be missing."))]⟩
  else
    match candidate.content with
    | none => .ok emptyNoPartsResult
    | some content =>
      match content.parts with
      | none => .ok emptyNoPartsResult
      | some parts =>
        if parts.isEmpty then .ok emptyNoPartsResult
        else scanResult parts

/-- The body of the `try` block of `GeminiModel.processResponse`
(models/geminiModel.js lines 378-488): absent response, prompt-feedback block,
missing candidates, then candidate 0. An `.error` value is a thrown exception,
to be converted by the `catch` wrapper. -/
def processResponseTry (apiResponse : Option ApiResponse) : Except String ModelResponse :=
  match apiResponse with
  | none => .ok ⟨"error", .obj [("error", .str "Received no response object from API.")]⟩
  | some resp =>
    if jsStrTruthy (resp.promptFeedback.bind (fun pf => pf.blockReason)) then
      .ok ⟨"error", .obj [
        ("error", .str ("Content generation blocked due to: "
          ++ (resp.promptFeedback.bind (fun pf => pf.blockReason)).getD "")),
        ("details", .obj [("safetyRatings", firstCandidateSafetyRatings resp)])]⟩
    else
      match resp.candidates with
      | none => noCandidatesResult resp
      | some [] => noCandidatesResult resp
      | some (candidate :: _) => candidateResult candidate

/-- `GeminiModel.processResponse` of models/geminiModel.js: the `try` body with
the `catch` of lines 489-499, which converts any exception into an `error`
outcome whose message is prefixed with the failed-to-process text
(`rawResponse` is `undefined` outside development mode). -/
def processResponse (apiResponse : Option ApiResponse) : ModelResponse :=
  match processResponseTry apiResponse with
  | .ok r => r
  | .error msg =>
    ⟨"error", .obj [
      ("error", .str ("Failed to process the API response: " ++ msg)),
      ("rawResponse", .undefined)]⟩

example : (processResponse none).type = "error" := rfl
example : processResponse (some ⟨none, none⟩)
    = ⟨"empty", .obj [("text", .str "The model did not return any content.")]⟩ := rfl
example : processResponse (some ⟨none, some [⟨none, .undefined,
      some ⟨some [.part ⟨some "A", none⟩,
                  .part ⟨none, some ⟨some "image/png", some "XDATA"⟩⟩,
                  .part ⟨some "B", none⟩]⟩⟩]⟩)
    = ⟨"image", .obj [("imageUrl", .str "data:image/png;base64,XDATA"), ("text", .str "AB")]⟩ := rfl

/-- The `parts.find(...)` call of the find-based classifier (older model file,
line 496): evaluates the predicate `part.inlineData && part.inlineData.mimeType
.startsWith('image/')` on each part in order, returning the first match; a
property read on an unexpected shape throws. -/
def findImagePart : List JsPart → Except String (Option ContentPart)
  | [] => .ok none
  | .nullPart :: _ => .error nullPartReadMsg
  | .part pt :: rest =>
    match pt.inlineData with
    | some d =>
      match d.mimeType with
      | none => .error startsWithUndefMsg
      | some m =>
        if jsStartsWith m "image/" then .ok (some pt)
        else findImagePart rest
    | none => findImagePart rest

/-- The `parts.filter(part => typeof part.text === 'string').map(part => part.text)`
pipeline of the find-based classifier (lines 509-511): the text contents of the
parts, in order; the filter callback throws on a `null` part. -/
def textPartsOf : List JsPart → Except String (List String)
  | [] => .ok []
  | .nullPart :: _ => .error "Cannot read properties of null (reading text)"
  | .part pt :: rest =>
    match textPartsOf rest with
    | .error m => .error m
    | .ok ts =>
      match pt.text with
      | some t => .ok (t :: ts)
      | none => .ok ts

/-- Lines 492-529 of the find-based `processResponse` (older model file): the
first image part wins and yields an image outcome without a caption; otherwise
the text parts are joined with a newline. -/
def scanResultFind (parts : List JsPart) : Except String ModelResponse :=
  match findImagePart parts with
  | .error m => .error m
  | .ok (some imagePart) =>
    .ok ⟨"image", .obj [
      ("imageUrl", .str ("data:" ++ jsInterp (imagePart.inlineData.bind (fun d => d.mimeType))
        ++ ";base64," ++ jsInterp (imagePart.inlineData.bind (fun d => d.data))))]⟩
  | .ok none =>
    match textPartsOf parts with
    | .error m => .error m
    | .ok ts =>
      let textContent := jsJoin "\n" ts
      if textContent != "" then
        .ok ⟨"text", .obj [("text", .str textContent)]⟩
      else
        .ok ⟨"empty", .obj [
          ("text", .str "Model response did not contain usable text or image data."),
          ("rawParts", .arr (parts.map partToJson))]⟩

/-- The candidate-0 branch of the find-based classifier (older model file,
lines 461-529); identical to `candidateResult` up to the part scan. -/
def candidateResultFind (candidate : Candidate) : Except String ModelResponse :=
  if abnormalFinish candidate.finishReason then
    if candidate.finishReason == some "SAFETY" then
      .ok ⟨"error", .obj [
        ("error", .str "Content generation stopped due to safety concerns."),
        ("details", .obj [("safetyRatings", candidate.safetyRatings)])]⟩
    else if candidate.finishReason == some "RECITATION" then
      .ok ⟨"error", .obj [("error", .str "Content generation stopped due to potential recitation.")]⟩
    else
      .ok ⟨"text", .obj [("text", .str ("Generation stopped unexpectedly (" ++ candidate.finishReason.getD "" ++ "). Partial content might be missing."))]⟩
  else
    match candidate.content with
    | none => .ok emptyNoPartsResult
    | some content =>
      match content.parts with
      | none => .ok emptyNoPartsResult
      | some parts =>
        if parts.isEmpty then .ok emptyNoPartsResult
        else scanResultFind parts

/-- The `try` body of the find-based `processResponse` (older model file,
lines 427-529); identical to `processResponseTry` up to the part scan. -/
def processResponseFindTry (apiResponse : Option ApiResponse) : Except String ModelResponse :=
  match apiResponse with
  | none => .ok ⟨"error", .obj [("error", .str "Received no response object from API.")]⟩
  | some resp =>
    if jsStrTruthy (resp.promptFeedback.bind (fun pf => pf.blockReason)) then
      .ok ⟨"error", .obj [
        ("error", .str ("Content generation blocked due to: "
          ++ (resp.promptFeedback.bind (fun pf => pf.blockReason)).getD "")),
        ("details", .obj [("safetyRatings", firstCandidateSafetyRatings resp)])]⟩
    else
      match resp.candidates with
      | none => noCandidatesResult resp
      | some [] => noCandidatesResult resp
      | some (candidate :: _) => candidateResultFind candidate

/-- The find-based `GeminiModel.processResponse` of the older model file
(lines 427-542), with the same `catch` conversion as the loop-based one. -/
def processResponseFindBased (apiResponse : Option ApiResponse) : ModelResponse :=
  match processResponseFindTry apiResponse with
  | .ok r => r
  | .error msg =>
    ⟨"error", .obj [
      ("error", .str ("Failed to process the API response: " ++ msg)),
      ("rawResponse", .undefined)]⟩

/-- The round-robin key state of models/geminiModel.js lines 256-257: the ordered
pool `apiKeys` and the module-level cursor `nextKeyIndex`. -/
structure RotatorState where
  apiKeys : List String
  nextKeyIndex : Nat

/-- `getNextGenAI` of models/geminiModel.js lines 264-268: returns the key at the
cursor and advances the cursor modulo the pool size. -/
def getNextGenAI (s : RotatorState) : String × RotatorState :=
  let selectedKey := s.apiKeys.getD s.nextKeyIndex ""
  (selectedKey, { s with nextKeyIndex := (s.nextKeyIndex + 1) % s.apiKeys.length })

/-- The rotator state after `k` successive calls of `getNextGenAI`. -/
def rotatorStates (s : RotatorState) : Nat → RotatorState
  | 0 => s
  | k + 1 => rotatorStates (getNextGenAI s).2 k

/-- The keys handed out by `m` successive calls of `getNextGenAI`, in call order. -/
def rotatorRun (s : RotatorState) : Nat → List String
  | 0 => []
  | m + 1 => (getNextGenAI s).1 :: rotatorRun (getNextGenAI s).2 m

/-- The pool of models/geminiModel.js line 256: the two configured keys. -/
def apiKeysOf (key1 key2 : String) : List String := [key1, key2]

example : rotatorRun ⟨apiKeysOf "K1" "K2", 0⟩ 5 = ["K1", "K2", "K1", "K2", "K1"] := rfl

/-- The `ApiError` class of utils/errorHandler.js: status code, message and
optional structured details (`Json.null` when the constructor default is used). -/
structure ApiError where
  statusCode : Nat
  message : String
  details : Json

/-- The fields of a caught exception that the `catch` block of
`GeminiModel.generateContent` inspects: `error.message`, `error.status`,
`error.response?.promptFeedback?.blockReason` and
`error.response?.candidates?.[0]?.safetyRatings`. -/
structure CaughtError where
  message : String
  status : Option String
  responseBlockReason : Option String
  responseSafetyRatings : Json

/-- The caught view of a thrown `ApiError`: it has no `status` and no `response`
property, only a `message`. -/
def CaughtError.fromApiError (e : ApiError) : CaughtError :=
  ⟨e.message, none, none, .undefined⟩

/-- The `catch` block of `GeminiModel.generateContent` (models/geminiModel.js
lines 342-369): classify the caught error by its message into a blocked (400),
authentication (401), quota (429) or generic upstream (502) `ApiError`. -/
def catchToApiError (error : CaughtError) : ApiError :=
  if error.message != "" && jsIncludes error.message "response was blocked" then
    ApiError.mk 400
      ("Request blocked due to safety settings: " ++
        (if jsStrTruthy error.responseBlockReason then error.responseBlockReason.getD ""
         else "Safety settings"))
      (.obj [("safetyRatings",
        if jsTruthy error.responseSafetyRatings then error.responseSafetyRatings
        else .str "N/A")])
  else if error.message != "" &&
      (jsIncludes error.message "API key not valid" || error.status == some "PERMISSION_DENIED") then
    ApiError.mk 401 "Authentication failed. Check your GOOGLE_AI_API_KEY."
      (.obj [("sdkError", .str error.message)])
  else if error.message != "" && jsIncludes error.message "Quota exceeded" then
    ApiError.mk 429 "API quota exceeded. Please check your usage limits."
      (.obj [("sdkError", .str error.message)])
  else
    ApiError.mk 502 "Error communicating with the Google AI service."
      (.obj [("sdkError", .str error.message)])

/-- The base64 alphabet. -/
def base64Table : List Char :=
  "ABCDEFGHIJKLMNOPQRSTUVWXYZabcdefghijklmnopqrstuvwxyz0123456789+/".data

/-- The base64 digit of a 6-bit value. -/
def base64Char (n : Nat) : Char := base64Table.getD n 'A'

/-- Standard base64 encoding of a byte list with padding, modelling
`Buffer.prototype.toString('base64')`. -/
def base64Encode : List Nat → String
  | [] => ""
  | [a] => String.mk [base64Char (a % 256 / 4), base64Char (a % 4 * 16), '=', '=']
  | [a, b] => String.mk [base64Char (a % 256 / 4), base64Char (a % 4 * 16 + b % 256 / 16),
      base64Char (b % 16 * 4), '=']
  | a :: b :: c :: rest =>
    String.mk [base64Char (a % 256 / 4), base64Char (a % 4 * 16 + b % 256 / 16),
      base64Char (b % 16 * 4 + c % 256 / 64), base64Char (c % 64)] ++ base64Encode rest

/-- The `messageParts` assembly of `GeminiModel.generateContent`
(models/geminiModel.js lines 297-318): the prompt as a text part, followed by
the base64-encoded image when an image buffer and a truthy MIME type were given
and the MIME type passed validation. -/
def requestMessageParts (prompt : String) (imageBuffer : Option (List Nat))
    (imageMimeType : Option String) : List ContentPart :=
  match imageBuffer, imageMimeType with
  | some buf, some mt =>
    if mt != "" then
      [⟨some prompt, none⟩, ⟨none, some ⟨some mt, some (base64Encode buf)⟩⟩]
    else [⟨some prompt, none⟩]
  | _, _ => [⟨some prompt, none⟩]

/-- The behaviour of the upstream SDK call `model.generateContent(messageParts)`
followed by `result.response`: a function from the sent parts to either the raw
response object or a thrown error. -/
def UpstreamModel : Type := List ContentPart → Except CaughtError (Option ApiResponse)

/-- The result of one `GeminiModel.generateContent` call: the returned or thrown
value, whether the upstream call was issued, and how many times `getNextGenAI`
advanced the rotation cursor. -/
structure GenOutcome where
  result : Except ApiError ModelResponse
  upstreamCalled : Bool
  keyRotations : Nat

/-- The upstream call and response processing of lines 335-341. -/
def sendUpstreamRequest (upstream : UpstreamModel) (messageParts : List ContentPart) : GenOutcome :=
  match upstream messageParts with
  | .ok response => ⟨.ok (processResponse response), true, 1⟩
  | .error e => ⟨.error (catchToApiError e), true, 1⟩

/-- `GeminiModel.generateContent` of models/geminiModel.js lines 289-370.
`getNextGenAI` is called first (one cursor advance per call, before any
validation). When an image buffer and a truthy MIME type are present and the
MIME type does not start with `image/`, the `ApiError(400, 'Invalid image MIME
type provided.')` thrown inside the `try` block is caught by the function's own
`catch` and re-classified by `catchToApiError`, and the upstream call is never
issued. Otherwise the assembled message parts are sent upstream and the raw
response is classified, with thrown SDK errors re-classified likewise. -/
def GeminiModel.generateContent (upstream : UpstreamModel) (prompt : String)
    (imageBuffer : Option (List Nat)) (imageMimeType : Option String) : GenOutcome :=
  match imageBuffer, imageMimeType with
  | some _, some mt =>
    if mt != "" then
      if !jsStartsWith mt "image/" then
        ⟨.error (catchToApiError (CaughtError.fromApiError
            (ApiError.mk 400 "Invalid image MIME type provided." .null))),
          false, 1⟩
      else
        sendUpstreamRequest upstream (requestMessageParts prompt imageBuffer imageMimeType)
    else
      sendUpstreamRequest upstream (requestMessageParts prompt imageBuffer imageMimeType)
  | _, _ => sendUpstreamRequest upstream (requestMessageParts prompt imageBuffer imageMimeType)

example :
    (GeminiModel.generateContent (fun _ => .ok none) "hi" (some [1]) (some "text/plain")).result
      = .error (ApiError.mk 502 "Error communicating with the Google AI service."
          (.obj [("sdkError", .str "Invalid image MIME type provided.")])) := rfl

/-- One HTTP response: status code and JSON body. -/
structure HttpResponse where
  status : Nat
  body : Json

/-- `errorMiddleware` of utils/errorHandler.js (lines 21-66), restricted to
`ApiError` values (the only errors this pipeline passes to `next`): status from
the error; body `{error, details}` when details are truthy, else
`{error, message}` with the production placeholder or the original message. -/
def errorMiddleware (production : Bool) (err : ApiError) : HttpResponse :=
  if jsTruthy err.details then
    ⟨err.statusCode, .obj [("error", .str err.message), ("details", err.details)]⟩
  else
    ⟨err.statusCode, .obj [("error", .str err.message),
      ("message", if production then .str "See error field for details." else .str err.message)]⟩

/-- The `prompt` field of the request body: absent, present but not a string
(with the given truthiness), or a string. -/
inductive PromptField where
  | absent
  | nonString (truthy : Bool)
  | strVal (s : String)

/-- The validation condition of controllers/generationController.js line 19:
`!prompt || typeof prompt !== 'string' || prompt.trim() === ''`. -/
def promptInvalid : PromptField → Bool
  | .absent => true
  | .nonString truthy => !truthy || true
  | .strVal s => s == "" || jsTrim s == ""

/-- The string value of a prompt that passed validation. -/
def promptString : PromptField → String
  | .strVal s => s
  | _ => ""

/-- An uploaded image file as delivered by the upload middleware: in-memory
buffer and declared MIME type. -/
structure ImageFile where
  buffer : List Nat
  mimetype : String

/-- The debug mutation of controllers/generationController.js lines 44-46:
outside production mode, `modelResponse.data._raw_model_response_type =
modelResponse.type` adds a field to the outcome object in place. -/
def addRawTypeDebugField (production : Bool) (mr : ModelResponse) : ModelResponse :=
  if production then mr
  else { mr with data := jsonSetField mr.data "_raw_model_response_type" (.str mr.type) }

/-- `modelResponse.data.error?.toLowerCase().includes('blocked')` of line 61. -/
def errorMentionsBlocked : Json → Bool
  | .str s => jsIncludes (jsToLower s) "blocked"
  | _ => false

/-- JavaScript `a || b` on JS values. -/
def jsOr (a b : Json) : Json := if jsTruthy a then a else b

/-- The response switch of controllers/generationController.js lines 44-71:
the debug mutation, then `image`/`text` send the data object as the body,
`empty` sends `{message}`, `error` sends `{error, details}` with 400 when the
message mentions "blocked" case-insensitively and 500 otherwise, and any other
type throws an `ApiError(500, ...)` that the error middleware renders. -/
def respondToModel (production : Bool) (modelResponse : ModelResponse) : HttpResponse :=
  let mr := addRawTypeDebugField production modelResponse
  if mr.type == "image" || mr.type == "text" then
    ⟨200, mr.data⟩
  else if mr.type == "empty" then
    ⟨200, .obj [("message", jsOr (jsonGet mr.data "text") (.str "No content generated."))]⟩
  else if mr.type == "error" then
    ⟨if errorMentionsBlocked (jsonGet mr.data "error") then 400 else 500,
     .obj [("error", jsOr (jsonGet mr.data "error")
              (.str "An error occurred while processing the model response.")),
           ("details", jsonGet mr.data "details")]⟩
  else
    errorMiddleware production (ApiError.mk 500 "Received an unexpected response format from the AI model." .null)

/-- The observable result of one request through the controller: the HTTP
response and how often the model layer, the upstream SDK and the rotation
cursor were exercised. -/
structure PipelineResult where
  response : HttpResponse
  modelCalls : Nat
  upstreamCalls : Nat
  keyRotations : Nat

/-- `GenerationController.generateContent` of
controllers/generationController.js lines 13-81: validate the prompt (a failed
validation throws `ApiError(400, ...)` before the model layer is invoked), call
`GeminiModel.generateContent` with the trimmed prompt and the optional upload,
present the outcome, and route any thrown `ApiError` to `errorMiddleware`. -/
def GenerationController.generateContent (production : Bool) (upstream : UpstreamModel)
    (reqPrompt : PromptField) (reqFile : Option ImageFile) : PipelineResult :=
  if promptInvalid reqPrompt then
    ⟨errorMiddleware production
        (ApiError.mk 400 "Text prompt (prompt) is required and cannot be empty." .null),
      0, 0, 0⟩
  else
    let gen := GeminiModel.generateContent upstream (jsTrim (promptString reqPrompt))
      (reqFile.map (fun f => f.buffer)) (reqFile.map (fun f => f.mimetype))
    match gen.result with
    | .error e =>
      ⟨errorMiddleware production e, 1, if gen.upstreamCalled then 1 else 0, gen.keyRotations⟩
    | .ok modelResponse =>
      ⟨respondToModel production modelResponse, 1,
        if gen.upstreamCalled then 1 else 0, gen.keyRotations⟩

example :
    (GenerationController.generateContent true (fun _ => .ok none) (.strVal " ") none).response.status
      = 400 := rfl
example :
    (GenerationController.generateContent false (fun _ => .ok (some ⟨none, some [⟨none, .undefined,
        some ⟨some [.part ⟨some "hi", none⟩]⟩⟩]⟩)) (.strVal "p") none).response.body
      = .obj [("text", .str "hi"), ("_raw_model_response_type", .str "text")] := rfl

/-- A part is an image part: it has `inlineData` with a MIME type starting with
`image/` (the predicate both classifiers test). -/
def isImagePartB : JsPart → Bool
  | .nullPart => false
  | .part pt =>
    match pt.inlineData with
    | some d =>
      match d.mimeType with
      | some m => jsStartsWith m "image/"
      | none => false
    | none => false

/-- A part contributes text: it carries a string `text` field and is not an
image part (the loop-based scan checks `text` only in its `else` branch). -/
def isTextPartB (p : JsPart) : Bool :=
  match p with
  | .nullPart => false
  | .part pt => pt.text.isSome && !isImagePartB p

/-- A part on which the scanning property reads cannot throw: not `null`, and if
`inlineData` is present its `mimeType` is present. -/
def partSafe : JsPart → Bool
  | .nullPart => false
  | .part pt =>
    match pt.inlineData with
    | some d => d.mimeType.isSome
    | none => true

/-- The text accumulated by scanning the given parts starting from `acc`:
every non-image part with a string `text` field is appended, in encounter
order, with no separator (`null` start becomes `""` on first append). -/
def textConcatFrom (acc : Option String) (ps : List JsPart) : Option String :=
  ps.foldl (fun a p =>
    match p with
    | .nullPart => a
    | .part pt =>
      if isImagePartB (.part pt) then a
      else
        match pt.text with
        | some t => some (a.getD "" ++ t)
        | none => a) acc

/-- Appending a list of text-part contents to an accumulated text value. -/
def appendTexts (acc : Option String) (ts : List String) : Option String :=
  ts.foldl (fun a t => some (a.getD "" ++ t)) acc

/-- A response whose single candidate has a part of unexpected shape
(`inlineData` without `mimeType`), on which the classifier body throws. -/
def malformedPartResponse : Option ApiResponse :=
  some ⟨none, some [⟨none, .undefined, some ⟨some [.part ⟨none, some ⟨none, none⟩⟩]⟩⟩]⟩

/-- The response of the image-precedence scenario: candidate parts
`[text "A", image X, text "B"]` with `X = (image/png, XDATA)`. -/
def imageScenarioResponse : ApiResponse :=
  ⟨none, some [⟨none, .undefined,
    some ⟨some [.part ⟨some "A", none⟩,
                .part ⟨none, some ⟨some "image/png", some "XDATA"⟩⟩,
                .part ⟨some "B", none⟩]⟩⟩]⟩

/-- A safety-stopped candidate that also carries text and image parts. -/
def safetyStopResponse : ApiResponse :=
  ⟨none, some [⟨some "SAFETY", .obj [("category", .str "HARM_CATEGORY_HARASSMENT")],
    some ⟨some [.part ⟨some "partial text", none⟩,
                .part ⟨none, some ⟨some "image/png", some "XDATA"⟩⟩]⟩⟩]⟩

/-- A response with a single text part `"hi"`. -/
def singleTextResponse : ApiResponse :=
  ⟨none, some [⟨none, .undefined, some ⟨some [.part ⟨some "hi", none⟩]⟩⟩]⟩

/-- A response with two text parts `"A"` and `"B"`, on which the two
classifiers disagree (direct concatenation vs newline join). -/
def twoTextResponse : ApiResponse :=
  ⟨none, some [⟨none, .undefined,
    some ⟨some [.part ⟨some "A", none⟩, .part ⟨some "B", none⟩]⟩⟩]⟩

theorem rotatorStates_apiKeys (k : Nat) (s : RotatorState) :
    (rotatorStates s k).apiKeys = s.apiKeys := by
  induction k generalizing s with
  | zero => rfl
  | succ k ih => exact ih _

theorem rotatorStates_cursor (k : Nat) (keys : List String) (i : Nat)
    (hn : 0 < keys.length) (hi : i < keys.length) :
    (rotatorStates ⟨keys, i⟩ k).nextKeyIndex = (i + k) % keys.length := by
  induction k generalizing i with
  | zero => simpa [rotatorStates] using (Nat.mod_eq_of_lt hi).symm
  | succ k ih =>
    have step : (rotatorStates ⟨keys, i⟩ (k + 1))
        = rotatorStates ⟨keys, (i + 1) % keys.length⟩ k := rfl
    rw [step, ih _ (Nat.mod_lt _ hn), Nat.mod_add_mod]
    congr 1
    omega

theorem rotatorRun_length (m : Nat) (s : RotatorState) : (rotatorRun s m).length = m := by
  induction m generalizing s with
  | zero => rfl
  | succ m ih => simpa [rotatorRun] using ih _

theorem rotatorRun_getD (m k : Nat) (s : RotatorState) (h : k < m) :
    (rotatorRun s m).getD k "" = (getNextGenAI (rotatorStates s k)).1 := by
  induction m generalizing s k with
  | zero => omega
  | succ m ih =>
    cases k with
    | zero => rfl
    | succ k =>
      have : (rotatorRun s (m + 1)).getD (k + 1) ""
          = (rotatorRun (getNextGenAI s).2 m).getD k "" := rfl
      rw [this, ih k _ (by omega)]
      rfl

theorem rotatorSelected (keys : List String) (k : Nat) (hn : 0 < keys.length) :
    (getNextGenAI (rotatorStates ⟨keys, 0⟩ k)).1 = keys.getD (k % keys.length) "" := by
  show (rotatorStates ⟨keys, 0⟩ k).apiKeys.getD (rotatorStates ⟨keys, 0⟩ k).nextKeyIndex ""
      = keys.getD (k % keys.length) ""
  rw [rotatorStates_apiKeys, rotatorStates_cursor k keys 0 hn hn]
  simp

theorem range_countP_mod (n m j : Nat) (hn : 0 < n) (hj : j < n) :
    (List.range m).countP (fun i => i % n == j)
      = m / n + if j < m % n then 1 else 0 := by
  induction m with
  | zero => simp
  | succ m ih =>
    have hr : m % n < n := Nat.mod_lt _ hn
    have hqr : n * (m / n) + m % n = m := Nat.div_add_mod m n
    rw [List.range_succ, List.countP_append, ih]
    simp only [List.countP_cons, List.countP_nil]
    have hcount : (if (m % n == j : Bool) then (1 : Nat) else 0)
        = if m % n = j then 1 else 0 := by
      by_cases hje : m % n = j <;> simp [hje]
    by_cases hc : m % n + 1 = n
    · have hmul : n * (m / n + 1) = n * (m / n) + n := Nat.mul_succ n (m / n)
      have hm1 : m + 1 = n * (m / n + 1) := by omega
      have hdiv : (m + 1) / n = m / n + 1 := by
        rw [hm1]; exact Nat.mul_div_cancel_left _ hn
      have hmod : (m + 1) % n = 0 := by
        rw [hm1]; exact Nat.mul_mod_right n _
      rw [hdiv, hmod, hcount]
      split_ifs <;> omega
    · have hm1 : m + 1 = n * (m / n) + (m % n + 1) := by omega
      have hdiv : (m + 1) / n = m / n := by
        rw [hm1, Nat.mul_add_div hn,
          Nat.div_eq_of_lt (show m % n + 1 < n by omega)]
        omega
      have hmod : (m + 1) % n = m % n + 1 := by
        rw [hm1, Nat.mul_add_mod]
        exact Nat.mod_eq_of_lt (show m % n + 1 < n by omega)
      rw [hdiv, hmod, hcount]
      split_ifs <;> omega

theorem ceil_div_of_mod_ne_zero (n m : Nat) (hn : 0 < n) (h : m % n ≠ 0) :
    (m + (n - 1)) / n = m / n + 1 := by
  have hqr : n * (m / n) + m % n = m := Nat.div_add_mod m n
  have hr : m % n < n := Nat.mod_lt _ hn
  have hmul : n * (m / n + 1) = n * (m / n) + n := Nat.mul_succ n (m / n)
  have hm1 : m + (n - 1) = n * (m / n + 1) + (m % n - 1) := by omega
  rw [hm1, Nat.mul_add_div hn,
    Nat.div_eq_of_lt (show m % n - 1 < n by omega)]

theorem rotatorRun_trace_aux (keys : List String) (hn : 0 < keys.length)
    (m : Nat) : ∀ c, c < keys.length →
    rotatorRun ⟨keys, c⟩ m
      = (List.range m).map (fun i => keys.getD ((c + i) % keys.length) "") := by
  induction m with
  | zero => intro c _; rfl
  | succ m ih =>
    intro c hc
    rw [List.range_succ_eq_map]
    have hstep : rotatorRun ⟨keys, c⟩ (m + 1)
        = keys.getD c "" :: rotatorRun ⟨keys, (c + 1) % keys.length⟩ m := rfl
    rw [hstep, ih ((c + 1) % keys.length) (Nat.mod_lt _ hn)]
    simp only [List.map_cons, List.map_map, Function.comp]
    congr 1
    · rw [Nat.add_zero, Nat.mod_eq_of_lt hc]
    · have hfun : (fun i => keys.getD (((c + 1) % keys.length + i) % keys.length) "")
          = fun i => keys.getD ((c + (i + 1)) % keys.length) "" := by
        funext i
        rw [Nat.mod_add_mod]
        congr 2
        omega
      rw [hfun]
      rfl

theorem rotatorRun_trace (keys : List String) (hn : 0 < keys.length) (m : Nat) :
    rotatorRun ⟨keys, 0⟩ m
      = (List.range m).map (fun i => keys.getD (i % keys.length) "") := by
  rw [rotatorRun_trace_aux keys hn m 0 hn]
  simp

theorem textConcatFrom_append (a : Option String) (xs ys : List JsPart) :
    textConcatFrom a (xs ++ ys) = textConcatFrom (textConcatFrom a xs) ys := by
  simp [textConcatFrom, List.foldl_append]

theorem scanParts_append (xs ys : List JsPart) (st : ScanState) :
    scanParts st (xs ++ ys)
      = match scanParts st xs with
        | .error m => .error m
        | .ok st' => scanParts st' ys := by
  induction xs generalizing st with
  | nil => rfl
  | cons p rest ih =>
    show (match scanPart st p with
          | Except.error m => Except.error m
          | Except.ok st' => scanParts st' (rest ++ ys)) = _
    cases hsp : scanPart st p with
    | error m => simp [scanParts, hsp]
    | ok st' => simp [scanParts, hsp, ih st']

theorem scanParts_safe (ps : List JsPart) :
    ∀ st : ScanState, (∀ p ∈ ps, partSafe p = true) →
    ∃ st', scanParts st ps = .ok st'
      ∧ st'.textContent = textConcatFrom st.textContent ps := by
  induction ps with
  | nil => exact fun st _ => ⟨st, rfl, rfl⟩
  | cons p rest ih =>
    intro st h
    have hp : partSafe p = true := h p (by simp)
    have hrest : ∀ q ∈ rest, partSafe q = true := fun q hq => h q (by simp [hq])
    cases p with
    | nullPart => simp [partSafe] at hp
    | part pt =>
      cases hin : pt.inlineData with
      | none =>
        cases htext : pt.text with
        | none =>
          obtain ⟨st', h1, h2⟩ := ih st hrest
          exact ⟨st', by simp [scanParts, scanPart, hin, htext, h1],
            by simp [h2, textConcatFrom, isImagePartB, hin, htext]⟩
        | some t =>
          obtain ⟨st', h1, h2⟩ :=
            ih { st with textContent := some (st.textContent.getD "" ++ t) } hrest
          exact ⟨st', by simp [scanParts, scanPart, hin, htext, h1],
            by simp [h2, textConcatFrom, isImagePartB, hin, htext]⟩
      | some d =>
        cases hmm : d.mimeType with
        | none => simp [partSafe, hin, hmm] at hp
        | some m =>
          by_cases him : jsStartsWith m "image/"
          · obtain ⟨st', h1, h2⟩ :=
              ih { st with imageData := d.data, imageMimeType := some m } hrest
            exact ⟨st', by simp [scanParts, scanPart, hin, hmm, him, h1],
              by simp [h2, textConcatFrom, isImagePartB, hin, hmm, him]⟩
          · cases htext : pt.text with
            | none =>
              obtain ⟨st', h1, h2⟩ := ih st hrest
              exact ⟨st', by simp [scanParts, scanPart, hin, hmm, him, htext, h1],
                by simp [h2, textConcatFrom, isImagePartB, hin, hmm, him, htext]⟩
            | some t =>
              obtain ⟨st', h1, h2⟩ :=
                ih { st with textContent := some (st.textContent.getD "" ++ t) } hrest
              exact ⟨st', by simp [scanParts, scanPart, hin, hmm, him, htext, h1],
                by simp [h2, textConcatFrom, isImagePartB, hin, hmm, him, htext]⟩

theorem scanParts_noImage (ps : List JsPart) :
    ∀ st : ScanState, (∀ p ∈ ps, partSafe p = true ∧ isImagePartB p = false) →
    scanParts st ps
      = .ok ⟨textConcatFrom st.textContent ps, st.imageData, st.imageMimeType⟩ := by
  induction ps with
  | nil => exact fun st _ => rfl
  | cons p rest ih =>
    intro st h
    have hp := h p (by simp)
    have hrest : ∀ q ∈ rest, partSafe q = true ∧ isImagePartB q = false :=
      fun q hq => h q (by simp [hq])
    cases p with
    | nullPart => simp [partSafe] at hp
    | part pt =>
      cases hin : pt.inlineData with
      | none =>
        cases htext : pt.text with
        | none =>
          rw [show scanParts st (.part pt :: rest) = scanParts st rest by
            simp [scanParts, scanPart, hin, htext], ih st hrest]
          simp [textConcatFrom, isImagePartB, hin, htext]
        | some t =>
          rw [show scanParts st (.part pt :: rest)
              = scanParts { st with textContent := some (st.textContent.getD "" ++ t) } rest by
            simp [scanParts, scanPart, hin, htext],
            ih { st with textContent := some (st.textContent.getD "" ++ t) } hrest]
          simp [textConcatFrom, isImagePartB, hin, htext]
      | some d =>
        cases hmm : d.mimeType with
        | none =>
          have hp1 := hp.1
          simp [partSafe, hin, hmm] at hp1
        | some m =>
          have him : jsStartsWith m "image/" = false := by
            have := hp.2
            simpa [isImagePartB, hin, hmm] using this
          cases htext : pt.text with
          | none =>
            rw [show scanParts st (.part pt :: rest) = scanParts st rest by
              simp [scanParts, scanPart, hin, hmm, him, htext], ih st hrest]
            simp [textConcatFrom, isImagePartB, hin, hmm, him, htext]
          | some t =>
            rw [show scanParts st (.part pt :: rest)
                = scanParts { st with textContent := some (st.textContent.getD "" ++ t) } rest by
              simp [scanParts, scanPart, hin, hmm, him, htext],
              ih { st with textContent := some (st.textContent.getD "" ++ t) } hrest]
            simp [textConcatFrom, isImagePartB, hin, hmm, him, htext]

theorem scanAgree (ps : List JsPart) :
    ∀ st : ScanState, (∀ p ∈ ps, isImagePartB p = false) →
    (∃ m, scanParts st ps = .error m ∧ findImagePart ps = .error m) ∨
    (∃ ts, scanParts st ps
        = .ok ⟨appendTexts st.textContent ts, st.imageData, st.imageMimeType⟩
      ∧ findImagePart ps = .ok none
      ∧ textPartsOf ps = .ok ts
      ∧ ts.length = ps.countP isTextPartB) := by
  induction ps with
  | nil => exact fun st _ => Or.inr ⟨[], rfl, rfl, rfl, rfl⟩
  | cons p rest ih =>
    intro st h
    have hp : isImagePartB p = false := h p (by simp)
    have hrest : ∀ q ∈ rest, isImagePartB q = false := fun q hq => h q (by simp [hq])
    cases p with
    | nullPart => exact Or.inl ⟨nullPartReadMsg, rfl, rfl⟩
    | part pt =>
      cases hin : pt.inlineData with
      | none =>
        cases htext : pt.text with
        | none =>
          rcases ih st hrest with ⟨m, h1, h2⟩ | ⟨ts, h1, h2, h3, h4⟩
          · exact Or.inl ⟨m, by simp [scanParts, scanPart, hin, htext, h1],
              by simp [findImagePart, hin, h2]⟩
          · refine Or.inr ⟨ts, ?_, ?_, ?_, ?_⟩
            · simp [scanParts, scanPart, hin, htext, h1]
            · simp [findImagePart, hin, h2]
            · simp [textPartsOf, h3, htext]
            · simp [h4, List.countP_cons, isTextPartB, isImagePartB, hin, htext]
        | some t =>
          rcases ih { st with textContent := some (st.textContent.getD "" ++ t) } hrest
            with ⟨m, h1, h2⟩ | ⟨ts, h1, h2, h3, h4⟩
          · exact Or.inl ⟨m, by simp [scanParts, scanPart, hin, htext, h1],
              by simp [findImagePart, hin, h2]⟩
          · refine Or.inr ⟨t :: ts, ?_, ?_, ?_, ?_⟩
            · rw [show scanParts st (.part pt :: rest)
                  = scanParts { st with textContent := some (st.textContent.getD "" ++ t) } rest by
                simp [scanParts, scanPart, hin, htext], h1]
              simp [appendTexts]
            · simp [findImagePart, hin, h2]
            · simp [textPartsOf, h3, htext]
            · simp [h4, List.countP_cons, isTextPartB, isImagePartB, hin, htext]
      | some d =>
        cases hmm : d.mimeType with
        | none => exact Or.inl ⟨startsWithUndefMsg,
            by simp [scanParts, scanPart, hin, hmm],
            by simp [findImagePart, hin, hmm]⟩
        | some m =>
          have him : jsStartsWith m "image/" = false := by
            simpa [isImagePartB, hin, hmm] using hp
          cases htext : pt.text with
          | none =>
            rcases ih st hrest with ⟨m', h1, h2⟩ | ⟨ts, h1, h2, h3, h4⟩
            · exact Or.inl ⟨m', by simp [scanParts, scanPart, hin, hmm, him, htext, h1],
                by simp [findImagePart, hin, hmm, him, h2]⟩
            · refine Or.inr ⟨ts, ?_, ?_, ?_, ?_⟩
              · simp [scanParts, scanPart, hin, hmm, him, htext, h1]
              · simp [findImagePart, hin, hmm, him, h2]
              · simp [textPartsOf, h3, htext]
              · simp [h4, List.countP_cons, isTextPartB, isImagePartB, hin, hmm, him, htext]
          | some t =>
            rcases ih { st with textContent := some (st.textContent.getD "" ++ t) } hrest
              with ⟨m', h1, h2⟩ | ⟨ts, h1, h2, h3, h4⟩
            · exact Or.inl ⟨m', by simp [scanParts, scanPart, hin, hmm, him, htext, h1],
                by simp [findImagePart, hin, hmm, him, h2]⟩
            · refine Or.inr ⟨t :: ts, ?_, ?_, ?_, ?_⟩
              · rw [show scanParts st (.part pt :: rest)
                    = scanParts { st with textContent := some (st.textContent.getD "" ++ t) } rest by
                  simp [scanParts, scanPart, hin, hmm, him, htext], h1]
                simp [appendTexts]
              · simp [findImagePart, hin, hmm, him, h2]
              · simp [textPartsOf, h3, htext]
              · simp [h4, List.countP_cons, isTextPartB, isImagePartB, hin, hmm, him, htext]

theorem scanResult_eq_scanResultFind (parts : List JsPart)
    (h0 : parts.countP isImagePartB = 0) (h1 : parts.countP isTextPartB ≤ 1) :
    scanResult parts = scanResultFind parts := by
  have hni : ∀ p ∈ parts, isImagePartB p = false := by
    intro p hp
    simpa using List.countP_eq_zero.mp h0 p hp
  rcases scanAgree parts ⟨none, none, none⟩ hni with ⟨m, hs, hf⟩ | ⟨ts, hs, hf, ht, hlen⟩
  · unfold scanResult scanResultFind
    rw [hs, hf]
  · unfold scanResult scanResultFind
    rw [hs, hf, ht]
    cases ts with
    | nil => rfl
    | cons t ts' =>
      cases ts' with
      | nil =>
        show (if jsStrTruthy (appendTexts none [t]) then _ else _) = _
        have happ : appendTexts none [t] = some t := rfl
        rw [happ]
        rfl
      | cons t2 ts'' =>
        rw [hlen.symm] at h1
        simp at h1

theorem scanResult_type (parts : List JsPart) (mr : ModelResponse)
    (h : scanResult parts = .ok mr) :
    mr.type = "image" ∨ mr.type = "text" ∨ mr.type = "empty" := by
  unfold scanResult at h
  cases hs : scanParts ⟨none, none, none⟩ parts with
  | error m => rw [hs] at h; exact Except.noConfusion h
  | ok st =>
    rw [hs] at h
    by_cases h1 : jsStrTruthy st.imageData
    · simp only [h1, if_true] at h
      injection h with h
      subst h
      simp
    · by_cases h2 : jsStrTruthy st.textContent
      · simp only [h1, h2, if_true, if_false] at h
        injection h with h
        subst h
        simp
      · simp only [h1, h2, if_false] at h
        injection h with h
        subst h
        simp

theorem noCandidatesResult_type (resp : ApiResponse) (mr : ModelResponse)
    (h : noCandidatesResult resp = .ok mr) :
    mr.type = "text" ∨ mr.type = "empty" := by
  unfold noCandidatesResult at h
  by_cases h1 : abnormalFinish (firstCandidateFinishReason resp)
  · simp only [h1, if_true] at h
    injection h with h
    subst h
    simp
  · simp only [h1, if_false] at h
    injection h with h
    subst h
    simp

theorem candidateResult_type (c : Candidate) (mr : ModelResponse)
    (h : candidateResult c = .ok mr) :
    mr.type = "image" ∨ mr.type = "text" ∨ mr.type = "empty" ∨ mr.type = "error" := by
  unfold candidateResult at h
  by_cases h1 : abnormalFinish c.finishReason
  · simp only [h1, if_true] at h
    by_cases h2 : c.finishReason == some "SAFETY"
    · simp only [h2, if_true] at h
      injection h with h
      subst h
      simp
    · by_cases h3 : c.finishReason == some "RECITATION"
      · simp only [h2, h3, if_true, if_false] at h
        injection h with h
        subst h
        simp
      · simp only [h2, h3, if_false] at h
        injection h with h
        subst h
        simp
  · simp only [h1, if_false] at h
    cases hc : c.content with
    | none =>
      simp only [hc] at h
      injection h with h
      subst h
      simp [emptyNoPartsResult]
    | some content =>
      simp only [hc] at h
      cases hparts : content.parts with
      | none =>
        simp only [hparts] at h
        injection h with h
        subst h
        simp [emptyNoPartsResult]
      | some parts =>
        simp only [hparts] at h
        by_cases he : parts.isEmpty
        · simp only [he, if_true] at h
          injection h with h
          subst h
          simp [emptyNoPartsResult]
        · simp only [he, if_false] at h
          rcases scanResult_type parts mr h with h | h | h <;> simp [h]

theorem processResponseTry_type (r : Option ApiResponse) (mr : ModelResponse)
    (h : processResponseTry r = .ok mr) :
    mr.type = "image" ∨ mr.type = "text" ∨ mr.type = "empty" ∨ mr.type = "error" := by
  unfold processResponseTry at h
  cases r with
  | none =>
    injection h with h
    subst h
    simp
  | some resp =>
    by_cases hb : jsStrTruthy (resp.promptFeedback.bind fun pf => pf.blockReason)
    · simp only [hb, if_true] at h
      injection h with h
      subst h
      simp
    · simp only [hb, if_false] at h
      cases hc : resp.candidates with
      | none =>
        rw [hc] at h
        rcases noCandidatesResult_type resp mr h with h | h <;> simp [h]
      | some cs =>
        rw [hc] at h
        cases cs with
        | nil => rcases noCandidatesResult_type resp mr h with h | h <;> simp [h]
        | cons c rest => exact candidateResult_type c mr h

theorem jsonGet_obj (fields : List (String × Json)) (k' : String) :
    jsonGet (.obj fields) k'
      = match fields.find? (fun f => f.1 == k') with
        | some f => f.2
        | none => .undefined := rfl

theorem find?_map_setField (fields : List (String × Json)) (k k' : String)
    (v : Json) (h : k' ≠ k) :
    (fields.map (fun f => if f.1 == k then (f.1, v) else f)).find? (fun f => f.1 == k')
      = fields.find? (fun f => f.1 == k') := by
  induction fields with
  | nil => rfl
  | cons hd tl ih =>
    rw [List.map_cons]
    by_cases hk' : (hd.1 == k') = true
    · have h1 : hd.1 = k' := by simpa using hk'
      have hkne : (hd.1 == k) = false := by
        rw [beq_eq_false_iff_ne]
        rw [h1]
        exact h
      have hfst : ((if hd.1 == k then (hd.1, v) else hd) : String × Json) = hd := by
        rw [hkne]
        rfl
      rw [hfst]
      simp only [List.find?, hk']
    · rw [Bool.not_eq_true] at hk'
      have hfst2 : (((if hd.1 == k then (hd.1, v) else hd) : String × Json).1 == k') = false := by
        by_cases hk : (hd.1 == k) = true
        · rw [hk]
          exact hk'
        · rw [Bool.not_eq_true] at hk
          rw [hk]
          exact hk'
      simp only [List.find?, hfst2, hk']
      exact ih

theorem find?_append_setField (fields : List (String × Json)) (k k' : String)
    (v : Json) (h : k' ≠ k) :
    (fields ++ [(k, v)]).find? (fun f => f.1 == k')
      = fields.find? (fun f => f.1 == k') := by
  induction fields with
  | nil =>
    have hne : (k == k') = false := by
      rw [beq_eq_false_iff_ne]
      exact fun hh => h hh.symm
    simp only [List.nil_append, List.find?, hne]
  | cons hd tl ih =>
    rw [List.cons_append]
    by_cases hk' : (hd.1 == k') = true
    · simp only [List.find?, hk']
    · rw [Bool.not_eq_true] at hk'
      simp only [List.find?, hk']
      exact ih

theorem jsonGet_setField_ne (j : Json) (k k' : String) (v : Json) (h : k' ≠ k) :
    jsonGet (jsonSetField j k v) k' = jsonGet j k' := by
  cases j with
  | obj fields =>
    have hstep : jsonSetField (.obj fields) k v
        = if (fields.any fun f => f.1 == k) = true
          then Json.obj (fields.map fun f => if f.1 == k then (f.1, v) else f)
          else Json.obj (fields ++ [(k, v)]) := rfl
    by_cases hany : (fields.any (fun f => f.1 == k)) = true
    · rw [hstep, if_pos hany, jsonGet_obj, jsonGet_obj,
        find?_map_setField fields k k' v h]
    · rw [hstep, if_neg hany, jsonGet_obj, jsonGet_obj,
        find?_append_setField fields k k' v h]
  | null => rfl
  | undefined => rfl
  | bool b => rfl
  | num n => rfl
  | str s => rfl
  | arr elems => rfl

theorem processResponseTry_some (resp : ApiResponse) :
    processResponseTry (some resp)
      = if jsStrTruthy (resp.promptFeedback.bind (fun pf => pf.blockReason)) then
          .ok ⟨"error", .obj [
            ("error", .str ("Content generation blocked due to: "
              ++ (resp.promptFeedback.bind (fun pf => pf.blockReason)).getD "")),
            ("details", .obj [("safetyRatings", firstCandidateSafetyRatings resp)])]⟩
        else
          match resp.candidates with
          | none => noCandidatesResult resp
          | some [] => noCandidatesResult resp
          | some (candidate :: _) => candidateResult candidate := rfl

theorem processResponseFindTry_some (resp : ApiResponse) :
    processResponseFindTry (some resp)
      = if jsStrTruthy (resp.promptFeedback.bind (fun pf => pf.blockReason)) then
          .ok ⟨"error", .obj [
            ("error", .str ("Content generation blocked due to: "
              ++ (resp.promptFeedback.bind (fun pf => pf.blockReason)).getD "")),
            ("details", .obj [("safetyRatings", firstCandidateSafetyRatings resp)])]⟩
        else
          match resp.candidates with
          | none => noCandidatesResult resp
          | some [] => noCandidatesResult resp
          | some (candidate :: _) => candidateResultFind candidate := rfl

theorem processResponseTry_candidate (resp : ApiResponse) (c : Candidate)
    (rest : List Candidate)
    (hb : jsStrTruthy (resp.promptFeedback.bind fun pf => pf.blockReason) = false)
    (hc : resp.candidates = some (c :: rest)) :
    processResponseTry (some resp) = candidateResult c := by
  rw [processResponseTry_some, hb]
  simp only [Bool.false_eq_true, if_false, hc]

theorem processResponseFindTry_candidate (resp : ApiResponse) (c : Candidate)
    (rest : List Candidate)
    (hb : jsStrTruthy (resp.promptFeedback.bind fun pf => pf.blockReason) = false)
    (hc : resp.candidates = some (c :: rest)) :
    processResponseFindTry (some resp) = candidateResultFind c := by
  rw [processResponseFindTry_some, hb]
  simp only [Bool.false_eq_true, if_false, hc]

/-- Claim C1: classifier totality. For every input whatsoever the classifier
returns an outcome whose `type` is one of `image`, `text`, `empty`, `error`
(it never throws: the function is total and the `catch` wrapper absorbs every
exception of the body), and whenever the body raises, the outcome is an error
whose message begins with the failed-to-process text. -/
theorem c1_classifier_totality (r : Option ApiResponse) :
    ((processResponse r).type = "image" ∨ (processResponse r).type = "text"
      ∨ (processResponse r).type = "empty" ∨ (processResponse r).type = "error")
    ∧ (∀ m, processResponseTry r = .error m →
        (processResponse r).type = "error"
        ∧ ∃ cause, jsonGet (processResponse r).data "error"
            = .str ("Failed to process the API response: " ++ cause)) := by
  constructor
  · cases htry : processResponseTry r with
    | ok mr =>
      have hpr : processResponse r = mr := by
        unfold processResponse
        rw [htry]
      rw [hpr]
      exact processResponseTry_type r mr htry
    | error m =>
      have hpr : processResponse r
          = ⟨"error", .obj [
              ("error", .str ("Failed to process the API response: " ++ m)),
              ("rawResponse", .undefined)]⟩ := by
        unfold processResponse
        rw [htry]
      rw [hpr]
      simp
  · intro m hm
    have hpr : processResponse r
        = ⟨"error", .obj [
            ("error", .str ("Failed to process the API response: " ++ m)),
            ("rawResponse", .undefined)]⟩ := by
      unfold processResponse
      rw [hm]
    rw [hpr]
    exact ⟨rfl, m, rfl⟩

theorem c1_classifier_totality_witness :
    (processResponse malformedPartResponse).type = "error"
    ∧ ∃ cause, jsonGet (processResponse malformedPartResponse).data "error"
        = Json.str ("Failed to process the API response: " ++ cause) :=
  (c1_classifier_totality malformedPartResponse).2 startsWithUndefMsg rfl

/-- Claim C2: round-robin rotation. Starting from cursor 0, the k-th call of
`getNextGenAI` (0-based, sequential) returns the credential at index
`k mod N`; the cursor is always in range `0..N-1`; the selection trace of `m`
calls is the pool indexed by `i mod N`; over `m` calls each pool index is used
`floor(m/N)` or `ceil(m/N)` times; and for the two-key pool of the code the
calls alternate key 1, key 2, key 1, ... -/
theorem c2_round_robin_rotation (keys : List String) (m k j : Nat) (k1 k2 : String)
    (hn : 0 < keys.length) :
    (k < m → (rotatorRun ⟨keys, 0⟩ m).getD k "" = keys.getD (k % keys.length) "")
    ∧ (rotatorStates ⟨keys, 0⟩ k).nextKeyIndex < keys.length
    ∧ rotatorRun ⟨keys, 0⟩ m
        = (List.range m).map (fun i => keys.getD (i % keys.length) "")
    ∧ (j < keys.length →
        (List.range m).countP (fun i => i % keys.length == j) = m / keys.length
        ∨ (List.range m).countP (fun i => i % keys.length == j)
            = (m + (keys.length - 1)) / keys.length)
    ∧ (k < m → (rotatorRun ⟨apiKeysOf k1 k2, 0⟩ m).getD k ""
        = if k % 2 = 0 then k1 else k2) := by
  refine ⟨?_, ?_, ?_, ?_, ?_⟩
  · intro hk
    rw [rotatorRun_getD m k _ hk, rotatorSelected keys k hn]
  · rw [rotatorStates_cursor k keys 0 hn hn]
    exact Nat.mod_lt _ hn
  · exact rotatorRun_trace keys hn m
  · intro hj
    by_cases hmod : m % keys.length = 0
    · left
      rw [range_countP_mod _ _ _ hn hj, hmod]
      simp
    · by_cases hjr : j < m % keys.length
      · right
        rw [range_countP_mod _ _ _ hn hj, if_pos hjr,
          ceil_div_of_mod_ne_zero _ _ hn hmod]
      · left
        rw [range_countP_mod _ _ _ hn hj, if_neg hjr]
        omega
  · intro hk
    have h2 : 0 < (apiKeysOf k1 k2).length := by simp [apiKeysOf]
    rw [rotatorRun_getD m k _ hk, rotatorSelected _ k h2]
    have hcases : k % 2 = 0 ∨ k % 2 = 1 := by omega
    have hlen : (apiKeysOf k1 k2).length = 2 := rfl
    rcases hcases with hke | hko
    · rw [hlen, hke, if_pos rfl]
      rfl
    · rw [hlen, hko, if_neg (by omega)]
      rfl

theorem c2_round_robin_rotation_witness :
    (rotatorRun ⟨["K1", "K2"], 0⟩ 5).getD 3 "" = "K2" :=
  (c2_round_robin_rotation ["K1", "K2"] 5 3 0 "K1" "K2" (by decide)).1 (by decide)

/-- Claim C4: safety-stop idempotence. For every present, non-prompt-blocked
raw result whose candidate 0 finishes with reason SAFETY, the classifier
returns the safety error carrying the candidate's safety ratings as details,
regardless of any content parts the candidate carries (the conclusion does not
depend on `c.content`, so the parts are never scanned). -/
theorem c4_safety_stop_idempotent (resp : ApiResponse) (c : Candidate)
    (rest : List Candidate)
    (hb : jsStrTruthy (resp.promptFeedback.bind fun pf => pf.blockReason) = false)
    (hc : resp.candidates = some (c :: rest))
    (hf : c.finishReason = some "SAFETY") :
    processResponse (some resp)
      = ⟨"error", .obj [
          ("error", .str "Content generation stopped due to safety concerns."),
          ("details", .obj [("safetyRatings", c.safetyRatings)])]⟩ := by
  have h1 := processResponseTry_candidate resp c rest hb hc
  have h2 : candidateResult c
      = .ok ⟨"error", .obj [
          ("error", .str "Content generation stopped due to safety concerns."),
          ("details", .obj [("safetyRatings", c.safetyRatings)])]⟩ := by
    unfold candidateResult
    rw [hf]
    rfl
  unfold processResponse
  rw [h1, h2]

theorem c4_safety_stop_idempotent_witness :
    processResponse (some safetyStopResponse)
      = ⟨"error", .obj [
          ("error", .str "Content generation stopped due to safety concerns."),
          ("details", .obj [("safetyRatings",
            .obj [("category", .str "HARM_CATEGORY_HARASSMENT")])])]⟩ :=
  c4_safety_stop_idempotent safetyStopResponse _ _ rfl rfl rfl

/-- Claim C8: no-candidates rule. For every present, non-prompt-blocked raw
result whose candidate list is absent or empty: if the finish reason the code
reads (`candidates?.[0]?.finishReason`) were present and abnormal the result
would be the stopped-text outcome, and otherwise the result is the empty
outcome — in this branch the read is always `undefined`, so the first arm is
vacuous and the empty outcome is always produced. -/
theorem c8_no_candidates_rule (resp : ApiResponse)
    (hb : jsStrTruthy (resp.promptFeedback.bind fun pf => pf.blockReason) = false)
    (hc : resp.candidates = none ∨ resp.candidates = some []) :
    (abnormalFinish (firstCandidateFinishReason resp) = true →
      processResponse (some resp)
        = ⟨"text", .obj [("text", .str ("Generation stopped due to: "
            ++ (firstCandidateFinishReason resp).getD "" ++ ". No content available."))]⟩)
    ∧ (abnormalFinish (firstCandidateFinishReason resp) = false →
      processResponse (some resp)
        = ⟨"empty", .obj [("text", .str "The model did not return any content.")]⟩) := by
  have hfr : firstCandidateFinishReason resp = none := by
    rcases hc with h | h <;> (unfold firstCandidateFinishReason; rw [h])
  constructor
  · intro habn
    rw [hfr] at habn
    exact absurd habn (by decide)
  · intro _
    have h1 : processResponseTry (some resp) = noCandidatesResult resp := by
      rw [processResponseTry_some, hb]
      simp only [Bool.false_eq_true, if_false]
      rcases hc with h | h <;> rw [h]
    have h2 : noCandidatesResult resp
        = .ok ⟨"empty", .obj [("text", .str "The model did not return any content.")]⟩ := by
      unfold noCandidatesResult
      rw [hfr]
      rfl
    unfold processResponse
    rw [h1, h2]

theorem c8_no_candidates_rule_witness :
    processResponse (some (⟨none, none⟩ : ApiResponse))
      = ⟨"empty", .obj [("text", .str "The model did not return any content.")]⟩ :=
  (c8_no_candidates_rule ⟨none, none⟩ rfl (Or.inl rfl)).2 rfl

theorem scanParts_append_ok (xs ys : List JsPart) (st st' : ScanState)
    (h : scanParts st xs = .ok st') :
    scanParts st (xs ++ ys) = scanParts st' ys := by
  rw [scanParts_append, h]

/-- Claim C3: image precedence and caption accumulation. On the concrete
scenario `[text "A", image X, text "B"]` the outcome is the image data URI of X
with caption `"AB"`; in general, for a normally finished candidate whose parts
are any prefix of safe parts, then an image part X with non-empty data, then
safe non-image parts, the outcome is the image built from X (the last image
part wins) captioned with the concatenation of all text parts in encounter
order. -/
theorem c3_image_precedence_caption :
    (processResponse (some imageScenarioResponse)
      = ⟨"image", .obj [("imageUrl", .str "data:image/png;base64,XDATA"),
          ("text", .str "AB")]⟩)
    ∧ (∀ (resp : ApiResponse) (c : Candidate) (rest : List Candidate)
        (content : Content) (ps1 ps2 : List JsPart) (X : ContentPart) (m d : String),
        jsStrTruthy (resp.promptFeedback.bind fun pf => pf.blockReason) = false →
        resp.candidates = some (c :: rest) →
        abnormalFinish c.finishReason = false →
        c.content = some content →
        content.parts = some (ps1 ++ JsPart.part X :: ps2) →
        X.inlineData = some ⟨some m, some d⟩ →
        jsStartsWith m "image/" = true →
        d ≠ "" →
        (∀ p ∈ ps1, partSafe p = true) →
        (∀ p ∈ ps2, partSafe p = true ∧ isImagePartB p = false) →
        processResponse (some resp)
          = ⟨"image", .obj [
              ("imageUrl", .str ("data:" ++ m ++ ";base64," ++ d)),
              ("text", optStrToJson
                (textConcatFrom none (ps1 ++ JsPart.part X :: ps2)))]⟩) := by
  constructor
  · rfl
  · intro resp c rest content ps1 ps2 X m d hb hc habn hcontent hparts hX hm hd hs1 hs2
    have h1 := processResponseTry_candidate resp c rest hb hc
    have hne : (ps1 ++ JsPart.part X :: ps2).isEmpty = false := by
      cases ps1 <;> rfl
    have h2 : candidateResult c = scanResult (ps1 ++ JsPart.part X :: ps2) := by
      unfold candidateResult
      rw [habn]
      simp only [Bool.false_eq_true, if_false, hcontent, hparts, hne]
    obtain ⟨st1, hscan1, htext1⟩ := scanParts_safe ps1 ⟨none, none, none⟩ hs1
    have hstep : scanPart st1 (JsPart.part X)
        = .ok { st1 with imageData := some d, imageMimeType := some m } := by
      simp [scanPart, hX, hm]
    have hcons : scanParts st1 (JsPart.part X :: ps2)
        = scanParts { st1 with imageData := some d, imageMimeType := some m } ps2 := by
      show (match scanPart st1 (JsPart.part X) with
            | Except.error msg => Except.error msg
            | Except.ok st' => scanParts st' ps2) = _
      rw [hstep]
    have htc : textConcatFrom none (ps1 ++ JsPart.part X :: ps2)
        = textConcatFrom st1.textContent ps2 := by
      rw [textConcatFrom_append, ← htext1]
      show textConcatFrom st1.textContent (JsPart.part X :: ps2) = _
      have hstepX : textConcatFrom st1.textContent (JsPart.part X :: ps2)
          = textConcatFrom st1.textContent ps2 := by
        simp [textConcatFrom, isImagePartB, hX, hm]
      rw [hstepX]
    have hscan : scanParts ⟨none, none, none⟩ (ps1 ++ JsPart.part X :: ps2)
        = .ok ⟨textConcatFrom none (ps1 ++ JsPart.part X :: ps2), some d, some m⟩ := by
      rw [scanParts_append_ok ps1 (JsPart.part X :: ps2) _ st1 hscan1, hcons,
        scanParts_noImage ps2 _ hs2, htc]
    have h3 : scanResult (ps1 ++ JsPart.part X :: ps2)
        = .ok ⟨"image", .obj [
            ("imageUrl", .str ("data:" ++ m ++ ";base64," ++ d)),
            ("text", optStrToJson
              (textConcatFrom none (ps1 ++ JsPart.part X :: ps2)))]⟩ := by
      unfold scanResult
      rw [hscan]
      have hdt : jsStrTruthy (some d) = true := by simp [jsStrTruthy, hd]
      simp only [hdt, if_true]
      rfl
    unfold processResponse
    rw [h1, h2, h3]

theorem addRaw_type (p : Bool) (mr : ModelResponse) :
    (addRawTypeDebugField p mr).type = mr.type := by
  unfold addRawTypeDebugField
  by_cases hp : p = true <;> simp [hp]

theorem addRaw_get_error (p : Bool) (mr : ModelResponse) :
    jsonGet (addRawTypeDebugField p mr).data "error" = jsonGet mr.data "error" := by
  unfold addRawTypeDebugField
  by_cases hp : p = true
  · simp [hp]
  · simp only [hp, if_false]
    exact jsonGet_setField_ne _ _ _ _ (by decide)

theorem addRaw_get_details (p : Bool) (mr : ModelResponse) :
    jsonGet (addRawTypeDebugField p mr).data "details" = jsonGet mr.data "details" := by
  unfold addRawTypeDebugField
  by_cases hp : p = true
  · simp [hp]
  · simp only [hp, if_false]
    exact jsonGet_setField_ne _ _ _ _ (by decide)

theorem errorMiddleware_status (p : Bool) (err : ApiError) :
    (errorMiddleware p err).status = err.statusCode := by
  unfold errorMiddleware
  by_cases hd : jsTruthy err.details = true <;> simp [hd]

/-- Claim C5 counterexample: calling the model layer with an image buffer and
the non-image MIME type `text/plain` does not produce a 400 `InvalidInput`
failure — the `ApiError(400, ...)` thrown inside the `try` block is swallowed
by the function's own `catch` and re-thrown as the generic 502 upstream error
(with the invalid-MIME message as the `sdkError` detail); the upstream call is
indeed never issued. -/
theorem c5_invalid_mime_counterexample :
    GeminiModel.generateContent (fun _ => Except.ok none) "hi" (some [1]) (some "text/plain")
      = ⟨.error (ApiError.mk 502 "Error communicating with the Google AI service."
          (.obj [("sdkError", .str "Invalid image MIME type provided.")])), false, 1⟩
    ∧ (match (GeminiModel.generateContent (fun _ => Except.ok none) "hi"
          (some [1]) (some "text/plain")).result with
        | .error e => e.statusCode
        | .ok _ => 0) ≠ 400 := by
  exact ⟨rfl, by decide⟩

/-- Claim C5, amended: for every call with an image buffer and a non-empty MIME
type that does not begin with `image/`, the call fails with the generic 502
upstream-communication `ApiError` whose `sdkError` detail is the invalid-MIME
message (the 400 thrown inside the `try` is re-classified by the `catch`), and
no upstream call is made. -/
theorem c5_invalid_mime_amended (upstream : UpstreamModel) (prompt : String)
    (buf : List Nat) (mime : String) (hne : mime ≠ "")
    (hmime : jsStartsWith mime "image/" = false) :
    GeminiModel.generateContent upstream prompt (some buf) (some mime)
      = ⟨.error (ApiError.mk 502 "Error communicating with the Google AI service."
          (.obj [("sdkError", .str "Invalid image MIME type provided.")])), false, 1⟩ := by
  have hstep : GeminiModel.generateContent upstream prompt (some buf) (some mime)
      = if (mime != "") = true then
          (if (!jsStartsWith mime "image/") = true then
            ⟨.error (catchToApiError (CaughtError.fromApiError
                (ApiError.mk 400 "Invalid image MIME type provided." .null))),
              false, 1⟩
          else sendUpstreamRequest upstream (requestMessageParts prompt (some buf) (some mime)))
        else sendUpstreamRequest upstream (requestMessageParts prompt (some buf) (some mime)) := rfl
  have h1 : (mime != "") = true := by simp [hne]
  have h2 : (!jsStartsWith mime "image/") = true := by rw [hmime]; rfl
  rw [hstep, if_pos h1, if_pos h2]
  rfl

theorem c5_invalid_mime_amended_witness :
    GeminiModel.generateContent (fun _ => Except.ok none) "draw" (some [7, 7]) (some "application/pdf")
      = ⟨.error (ApiError.mk 502 "Error communicating with the Google AI service."
          (.obj [("sdkError", .str "Invalid image MIME type provided.")])), false, 1⟩ :=
  c5_invalid_mime_amended (fun _ => Except.ok none) "draw" [7, 7] "application/pdf"
    (by decide) (by decide)

/-- Claim C6: error presentation. For every model outcome of type `error` whose
message is a non-empty string, the controller responds 400 when the message
contains "blocked" case-insensitively and 500 otherwise, with body
`{error: message, details}`; errors thrown before an outcome exists are
classified by the catch of the model layer — authentication failures to 401,
quota exhaustion to 429, any other upstream failure to 502 — and the pipeline
responds with exactly the status carried by that classified error. -/
theorem c6_error_presentation :
    (∀ (production : Bool) (mr : ModelResponse) (msg : String),
      mr.type = "error" → jsonGet mr.data "error" = .str msg → msg ≠ "" →
      respondToModel production mr
        = ⟨if jsIncludes (jsToLower msg) "blocked" then 400 else 500,
           .obj [("error", .str msg), ("details", jsonGet mr.data "details")]⟩)
    ∧ (∀ e : CaughtError, e.message ≠ "" →
        jsIncludes e.message "response was blocked" = false →
        (jsIncludes e.message "API key not valid" = true ∨ e.status = some "PERMISSION_DENIED") →
        (catchToApiError e).statusCode = 401)
    ∧ (∀ e : CaughtError, e.message ≠ "" →
        jsIncludes e.message "response was blocked" = false →
        jsIncludes e.message "API key not valid" = false →
        e.status ≠ some "PERMISSION_DENIED" →
        jsIncludes e.message "Quota exceeded" = true →
        (catchToApiError e).statusCode = 429)
    ∧ (∀ e : CaughtError,
        jsIncludes e.message "response was blocked" = false →
        jsIncludes e.message "API key not valid" = false →
        e.status ≠ some "PERMISSION_DENIED" →
        jsIncludes e.message "Quota exceeded" = false →
        (catchToApiError e).statusCode = 502)
    ∧ (∀ (production : Bool) (e : CaughtError) (s : String),
        promptInvalid (.strVal s) = false →
        (GenerationController.generateContent production (fun _ => .error e)
            (.strVal s) none).response.status
          = (catchToApiError e).statusCode) := by
  refine ⟨?_, ?_, ?_, ?_, ?_⟩
  · intro production mr msg htype herr hne
    have hmsg : jsOr (.str msg) (.str "An error occurred while processing the model response.")
        = .str msg := by
      simp [jsOr, jsTruthy, hne]
    simp only [respondToModel, addRaw_type, addRaw_get_error, addRaw_get_details,
      htype, herr, hmsg]
    rfl
  · intro e hne hblk hauth
    have hm : (e.message != "") = true := by simp [hne]
    have h1 : (e.message != "" && jsIncludes e.message "response was blocked") = false := by
      simp [hblk]
    have h2 : (e.message != ""
        && (jsIncludes e.message "API key not valid" || e.status == some "PERMISSION_DENIED")) = true := by
      rcases hauth with h | h <;> simp [hm, h]
    simp only [catchToApiError, h1, h2, Bool.false_eq_true, if_false, if_true]
  · intro e hne hblk hauth hstat hquota
    have hm : (e.message != "") = true := by simp [hne]
    have hst : (e.status == some "PERMISSION_DENIED") = false := by
      simp [hstat]
    have h1 : (e.message != "" && jsIncludes e.message "response was blocked") = false := by
      simp [hblk]
    have h2 : (e.message != ""
        && (jsIncludes e.message "API key not valid" || e.status == some "PERMISSION_DENIED")) = false := by
      simp [hauth, hst]
    have h3 : (e.message != "" && jsIncludes e.message "Quota exceeded") = true := by
      simp [hm, hquota]
    simp only [catchToApiError, h1, h2, h3, Bool.false_eq_true, if_false, if_true]
  · intro e hblk hauth hstat hquota
    have hst : (e.status == some "PERMISSION_DENIED") = false := by
      simp [hstat]
    have h1 : (e.message != "" && jsIncludes e.message "response was blocked") = false := by
      simp [hblk]
    have h2 : (e.message != ""
        && (jsIncludes e.message "API key not valid" || e.status == some "PERMISSION_DENIED")) = false := by
      simp [hauth, hst]
    have h3 : (e.message != "" && jsIncludes e.message "Quota exceeded") = false := by
      simp [hquota]
    simp only [catchToApiError, h1, h2, h3, Bool.false_eq_true, if_false]
  · intro production e s hval
    have hpipe : GenerationController.generateContent production (fun _ => .error e)
          (.strVal s) none
        = ⟨errorMiddleware production (catchToApiError e), 1, 1, 1⟩ := by
      simp only [GenerationController.generateContent, hval, Bool.false_eq_true, if_false]
      rfl
    rw [hpipe]
    exact errorMiddleware_status production (catchToApiError e)

theorem c6_error_presentation_witness :
    respondToModel true ⟨"error", .obj [
        ("error", .str "Content generation blocked due to: OTHER"), ("details", .undefined)]⟩
      = ⟨400, .obj [("error", .str "Content generation blocked due to: OTHER"),
          ("details", .undefined)]⟩ :=
  c6_error_presentation.1 true
    ⟨"error", .obj [("error", .str "Content generation blocked due to: OTHER"),
      ("details", .undefined)]⟩
    "Content generation blocked due to: OTHER" rfl rfl (by decide)

/-- Claim C7: empty-prompt fail-fast. For every request whose prompt is absent,
not a string, or trims to the empty string, the controller responds 400 with
the prompt-required error, and the model layer is never invoked: zero model
calls, zero upstream calls, zero rotation-cursor advances. -/
theorem c7_empty_prompt_fail_fast (production : Bool) (upstream : UpstreamModel)
    (reqFile : Option ImageFile) (reqPrompt : PromptField)
    (h : reqPrompt = .absent ∨ (∃ t, reqPrompt = .nonString t)
      ∨ ∃ s, reqPrompt = .strVal s ∧ jsTrim s = "") :
    (GenerationController.generateContent production upstream reqPrompt reqFile).response.status = 400
    ∧ jsonGet (GenerationController.generateContent production upstream reqPrompt reqFile).response.body "error"
        = .str "Text prompt (prompt) is required and cannot be empty."
    ∧ (GenerationController.generateContent production upstream reqPrompt reqFile).modelCalls = 0
    ∧ (GenerationController.generateContent production upstream reqPrompt reqFile).upstreamCalls = 0
    ∧ (GenerationController.generateContent production upstream reqPrompt reqFile).keyRotations = 0 := by
  have hinv : promptInvalid reqPrompt = true := by
    rcases h with h | ⟨t, h⟩ | ⟨s, h, hs⟩ <;> subst h <;> simp [promptInvalid]
    exact Or.inr (by simp [hs])
  have hpipe : GenerationController.generateContent production upstream reqPrompt reqFile
      = ⟨errorMiddleware production
          (ApiError.mk 400 "Text prompt (prompt) is required and cannot be empty." .null),
        0, 0, 0⟩ := by
    simp only [GenerationController.generateContent, hinv, if_true]
  rw [hpipe]
  exact ⟨rfl, rfl, rfl, rfl, rfl⟩

theorem c7_empty_prompt_fail_fast_witness :
    (GenerationController.generateContent true (fun _ => .ok none) (.strVal " ") none).response.status = 400
    ∧ jsonGet (GenerationController.generateContent true (fun _ => .ok none) (.strVal " ") none).response.body "error"
        = .str "Text prompt (prompt) is required and cannot be empty."
    ∧ (GenerationController.generateContent true (fun _ => .ok none) (.strVal " ") none).modelCalls = 0
    ∧ (GenerationController.generateContent true (fun _ => .ok none) (.strVal " ") none).upstreamCalls = 0
    ∧ (GenerationController.generateContent true (fun _ => .ok none) (.strVal " ") none).keyRotations = 0 :=
  c7_empty_prompt_fail_fast true (fun _ => .ok none) none (.strVal " ")
    (Or.inr (Or.inr ⟨" ", rfl, by decide⟩))

theorem c3_image_precedence_caption_witness :
    processResponse (some imageScenarioResponse)
      = ⟨"image", .obj [
          ("imageUrl", .str ("data:" ++ "image/png" ++ ";base64," ++ "XDATA")),
          ("text", optStrToJson (textConcatFrom none
            ([JsPart.part ⟨some "A", none⟩]
              ++ JsPart.part ⟨none, some ⟨some "image/png", some "XDATA"⟩⟩
                :: [JsPart.part ⟨some "B", none⟩])))]⟩ :=
  c3_image_precedence_caption.2 imageScenarioResponse
    ⟨none, .undefined, some ⟨some [JsPart.part ⟨some "A", none⟩,
      JsPart.part ⟨none, some ⟨some "image/png", some "XDATA"⟩⟩,
      JsPart.part ⟨some "B", none⟩]⟩⟩ []
    ⟨some [JsPart.part ⟨some "A", none⟩,
      JsPart.part ⟨none, some ⟨some "image/png", some "XDATA"⟩⟩,
      JsPart.part ⟨some "B", none⟩]⟩
    [JsPart.part ⟨some "A", none⟩] [JsPart.part ⟨some "B", none⟩]
    ⟨none, some ⟨some "image/png", some "XDATA"⟩⟩ "image/png" "XDATA"
    rfl rfl rfl rfl rfl rfl rfl (by decide) (by decide) (by decide)

/-- Claim C9 counterexample: in the default (non-production) environment, the
body the controller serializes for a text outcome is not the object the
classifier returned — the debug field `_raw_model_response_type` has been added
to it by the controller's in-place mutation. -/
theorem c9_outcome_immutability_counterexample :
    (GenerationController.generateContent false (fun _ => .ok (some singleTextResponse))
        (.strVal "p") none).response.body
      ≠ (processResponse (some singleTextResponse)).data := by
  intro h
  have h1 : jsonGet ((GenerationController.generateContent false
        (fun _ => .ok (some singleTextResponse)) (.strVal "p") none).response.body)
        "_raw_model_response_type" = Json.str "text" := rfl
  have h2 : jsonGet ((processResponse (some singleTextResponse)).data)
        "_raw_model_response_type" = Json.undefined := rfl
  rw [h] at h1
  rw [h2] at h1
  exact Json.noConfusion h1

/-- Claim C9, amended: image and text outcomes are serialized field-for-field
as produced by the classifier only in production mode; outside production mode
the controller first mutates the outcome by adding the
`_raw_model_response_type` debug field, and that mutated object is what is
serialized (empty and error outcomes are re-packaged into new
`{message}` / `{error, details}` bodies in either mode). -/
theorem c9_outcome_immutability_amended (mr : ModelResponse)
    (h : mr.type = "image" ∨ mr.type = "text") :
    respondToModel true mr = ⟨200, mr.data⟩
    ∧ respondToModel false mr
        = ⟨200, jsonSetField mr.data "_raw_model_response_type" (.str mr.type)⟩ := by
  rcases h with h | h <;>
    exact ⟨by simp [respondToModel, addRawTypeDebugField, h],
      by simp [respondToModel, addRawTypeDebugField, h]⟩

theorem c9_outcome_immutability_amended_witness :
    respondToModel true ⟨"text", .obj [("text", .str "hi")]⟩
      = ⟨200, .obj [("text", .str "hi")]⟩
    ∧ respondToModel false ⟨"text", .obj [("text", .str "hi")]⟩
      = ⟨200, jsonSetField (.obj [("text", .str "hi")]) "_raw_model_response_type" (.str "text")⟩ :=
  c9_outcome_immutability_amended ⟨"text", .obj [("text", .str "hi")]⟩ (Or.inr rfl)

/-- Claim C10 counterexample: on a candidate with the two text parts `"A"` and
`"B"`, the loop-based classifier returns the text `"AB"` (direct concatenation)
while the find-based classifier returns `"A\nB"` (newline join), so the two
implementations are not equivalent. -/
theorem c10_classifier_equivalence_counterexample :
    processResponse (some twoTextResponse)
      ≠ processResponseFindBased (some twoTextResponse) := by
  intro h
  have h1 : jsonGet (processResponse (some twoTextResponse)).data "text"
      = Json.str "AB" := rfl
  have h2 : jsonGet (processResponseFindBased (some twoTextResponse)).data "text"
      = Json.str "A\nB" := rfl
  rw [h] at h1
  rw [h2] at h1
  exact absurd (Json.str.inj h1) (by decide)

/-- Claim C10, amended: the two classifier implementations return equal
outcomes for every raw upstream result except possibly those whose scanned
parts (reached only when the result is present, not prompt-blocked, candidate 0
finishes normally and has a non-empty part list) contain an image part or more
than one text part — i.e. they agree whenever the scanned parts contain no
image part and at most one text part, and on every input that never reaches
the part scan. -/
theorem c10_classifier_equivalence_amended (r : Option ApiResponse)
    (H : ∀ (resp : ApiResponse) (c : Candidate) (rest : List Candidate)
        (content : Content) (ps : List JsPart),
      r = some resp →
      jsStrTruthy (resp.promptFeedback.bind fun pf => pf.blockReason) = false →
      resp.candidates = some (c :: rest) →
      abnormalFinish c.finishReason = false →
      c.content = some content →
      content.parts = some ps →
      ps.countP isImagePartB = 0 ∧ ps.countP isTextPartB ≤ 1) :
    processResponse r = processResponseFindBased r := by
  have hTry : processResponseTry r = processResponseFindTry r := by
    cases r with
    | none => rfl
    | some resp =>
      rw [processResponseTry_some, processResponseFindTry_some]
      cases hb : jsStrTruthy (resp.promptFeedback.bind fun pf => pf.blockReason) with
      | true => rfl
      | false =>
        simp only [Bool.false_eq_true, if_false]
        cases hc : resp.candidates with
        | none => rfl
        | some cs =>
          cases cs with
          | nil => rfl
          | cons c rest =>
            show candidateResult c = candidateResultFind c
            unfold candidateResult candidateResultFind
            by_cases hab : abnormalFinish c.finishReason = true
            · rw [if_pos hab, if_pos hab]
            · have habf : abnormalFinish c.finishReason = false := by
                revert hab
                cases abnormalFinish c.finishReason <;> simp
              rw [if_neg hab, if_neg hab]
              cases hcontent : c.content with
              | none => simp only [hcontent]
              | some content =>
                simp only [hcontent]
                cases hparts : content.parts with
                | none => simp only [hparts]
                | some ps =>
                  simp only [hparts]
                  by_cases hemp : ps.isEmpty = true
                  · rw [if_pos hemp, if_pos hemp]
                  · rw [if_neg hemp, if_neg hemp]
                    obtain ⟨h0, h1le⟩ := H resp c rest content ps rfl hb hc habf hcontent hparts
                    exact scanResult_eq_scanResultFind ps h0 h1le
  unfold processResponse processResponseFindBased
  rw [hTry]

theorem c10_classifier_equivalence_amended_witness :
    processResponse (some singleTextResponse)
      = processResponseFindBased (some singleTextResponse) := by
  apply c10_classifier_equivalence_amended
  intro resp c rest content ps hr hb hc hab hcontent hparts
  injection hr with hr
  subst hr
  injection hc with hc
  injection hc with hc1 hc2
  subst hc1
  injection hcontent with hcontent
  subst hcontent
  injection hparts with hparts
  subst hparts
  exact ⟨by decide, by decide⟩
